import Mathlib

/-!
A verification development for the request-lifecycle and context-management
core of a micro web framework (files `flask/ctx.py` and `flask/app.py`).

The embedding is a shallow one: the mutable interpreter state touched by the
context machinery (the two thread-local context stacks, every live context
object, and the observable side effects such as teardown-hook execution,
signals and session opening) is collected in a single `World` record, and each
source method becomes a pure function `World → World` (or `World → Option
World` when the source method can raise: `none` models an escaped exception
such as a failed `assert` or popping an empty list).

External collaborators (the session interface, the URL adapter, signals) are
modelled as oracle data carried by the state, following the source's
collaborator contracts.  Exceptions are opaque tokens (`Nat`), applications,
contexts and hooks are identified by numeric ids.
-/

set_option maxRecDepth 4000

/-- Session objects: `open_session` either yields a real session or the
interface substitutes a null session (`make_null_session`). -/
inductive Sess where
  | real (n : Nat)
  | null
deriving DecidableEq

/-- Outcome predetermined for a URL adapter's `match` call (external
collaborator contract: `match` either returns `(rule, args)` or raises a
routing `HTTPException`). -/
inductive RouteOutcome where
  | matched (rule : Nat) (args : Nat)
  | routingError (e : Nat)
deriving DecidableEq

/-- Observable side effects emitted by the context machinery, in order. -/
inductive Ev where
  /-- the `appcontext_pushed` signal, sent by `AppContext.push`. -/
  | appPushed (app : Nat)
  /-- the `appcontext_popped` signal, sent by `AppContext.pop`. -/
  | appPopped (app : Nat)
  /-- `self.app.do_teardown_appcontext(exc)` ran (app-context teardown hooks). -/
  | teardownApp (app : Nat) (exc : Option Nat)
  /-- `self.app.do_teardown_request(exc)` ran during `RequestContext.pop`;
  tagged with the id of the request context whose pop performed it. -/
  | teardownReq (ctx : Nat) (exc : Option Nat)
  /-- `self.request.close()` ran during `RequestContext.pop`. -/
  | reqClosed (ctx : Nat)
  /-- `session_interface.open_session` was consulted by `RequestContext.push`. -/
  | sessionOpened (ctx : Nat)
deriving DecidableEq

/-- The fields of an `AppContext` object (ctx.py:243-264): the owning app and
the push/pop reference count `_refcnt`. -/
structure AppContextData where
  app : Nat
  refcnt : Int
deriving DecidableEq

/-- The slice of a request object the context machinery touches: the mutable
matched-route fields set by `match_request`, the captured routing exception,
the `flask._preserve_context` environ flag read by `auto_pop`, and whether
`close()` / the environ `werkzeug.request` clearing have happened. -/
structure RequestData where
  urlRule : Option Nat
  viewArgs : Option Nat
  routingException : Option Nat
  preserveFlag : Bool
  closed : Bool
  envCleared : Bool
deriving DecidableEq

/-- The fields of a `RequestContext` object (ctx.py:351-391).
`openSessionResult` is the collaborator oracle for what
`session_interface.open_session` would return (`none` makes `push`
substitute a null session). -/
structure RequestContextData where
  app : Nat
  request : RequestData
  urlAdapter : Option RouteOutcome
  openSessionResult : Option Nat
  session : Option Sess
  implicitAppCtxStack : List (Option Nat)
  preserved : Bool
  preservedExc : Option Nat
deriving DecidableEq

/-- Per-application configuration consulted by the context machinery:
`app.preserve_context_on_exception` (app.py:840-852). -/
structure AppData where
  preserveContextOnException : Bool
deriving DecidableEq

/-- The whole mutable state: the two thread-local stacks (`_app_ctx_stack`,
`_request_ctx_stack`, stored top-first), the live context objects keyed by
id, the registered applications, a fresh-id source for implicitly created
app contexts, the ambient `sys.exc_info()[1]` value, and the event trace. -/
structure World where
  reqStack : List Nat
  appStack : List Nat
  reqCtxs : List (Nat × RequestContextData)
  appCtxs : List (Nat × AppContextData)
  apps : List (Nat × AppData)
  nextApp : Nat
  ambientExc : Option Nat
  events : List Ev
deriving DecidableEq

/-- Association-list lookup by numeric key. -/
def getAssoc {α : Type} : List (Nat × α) → Nat → Option α
  | [], _ => none
  | (k', v) :: rest, k => if k' = k then some v else getAssoc rest k

/-- Association-list update by numeric key (no-op when the key is absent). -/
def updAssoc {α : Type} : List (Nat × α) → Nat → α → List (Nat × α)
  | [], _, _ => []
  | (k', v') :: rest, k, v =>
      if k' = k then (k', v) :: rest else (k', v') :: updAssoc rest k v

/-- An `exc` argument as passed in the source: `none` models the `_sentinel`
default (resolved against `sys.exc_info()[1]`), `some e` an explicit value. -/
def resolveExc (w : World) : Option (Option Nat) → Option Nat
  | none => w.ambientExc
  | some e => e

/-- `AppContext.push` (ctx.py:266-274): increment `_refcnt`, push onto
`_app_ctx_stack`, send `appcontext_pushed`.  (The `sys.exc_clear` call is a
Python-2 relic with no modelled effect.) -/
def AppContext.push (w : World) (i : Nat) : World :=
  match getAssoc w.appCtxs i with
  | none => w
  | some d =>
      { w with
        appCtxs := updAssoc w.appCtxs i { d with refcnt := d.refcnt + 1 }
        appStack := i :: w.appStack
        events := w.events ++ [Ev.appPushed d.app] }

/-- `AppContext.pop` (ctx.py:276-289): decrement `_refcnt`; if it reaches
`≤ 0`, resolve `exc` and run `do_teardown_appcontext`; always pop the stack
(the `finally` block); assert the popped entry is `self`; send
`appcontext_popped`.  `none` models an escaped exception (empty stack or
failed assert). -/
def AppContext.pop (w : World) (i : Nat) (excArg : Option (Option Nat)) :
    Option World :=
  match getAssoc w.appCtxs i with
  | none => none
  | some d =>
      let r := d.refcnt - 1
      let evs := if r ≤ 0 then [Ev.teardownApp d.app (resolveExc w excArg)] else []
      match w.appStack with
      | [] => none
      | top :: rest =>
          if top = i then
            some { w with
                   appCtxs := updAssoc w.appCtxs i { d with refcnt := r }
                   appStack := rest
                   events := w.events ++ evs ++ [Ev.appPopped d.app] }
          else none

/-- `RequestContext.match_request` (ctx.py:425-434): ask the adapter to match;
store the matched rule and view args on success, capture a routing
`HTTPException` in `request.routing_exception` on failure.  The `none` branch
is unreachable from `push`, which guards `if self.url_adapter is not None`. -/
def RequestContext.match_request (c : RequestContextData) : RequestContextData :=
  match c.urlAdapter with
  | some (RouteOutcome.matched rule args) =>
      { c with request := { c.request with urlRule := some rule, viewArgs := some args } }
  | some (RouteOutcome.routingError e) =>
      { c with request := { c.request with routingException := some e } }
  | none => c

/-- `RequestContext.__init__` (ctx.py:351-391): build the request object,
try to create the URL adapter — a routing `HTTPException` raised there is
captured into `request.routing_exception` and the adapter stays `None` —
and start with an empty implicit app-context stack and no preservation. -/
def RequestContext.init (app : Nat) (adapterCreation : Except Nat RouteOutcome)
    (openSessionResult : Option Nat) (preserveFlag : Bool) (session : Option Sess) :
    RequestContextData :=
  let base : RequestData :=
    { urlRule := none, viewArgs := none, routingException := none,
      preserveFlag := preserveFlag, closed := false, envCleared := false }
  match adapterCreation with
  | .error e =>
      { app := app, request := { base with routingException := some e },
        urlAdapter := none, openSessionResult := openSessionResult,
        session := session, implicitAppCtxStack := [],
        preserved := false, preservedExc := none }
  | .ok a =>
      { app := app, request := base, urlAdapter := some a,
        openSessionResult := openSessionResult, session := session,
        implicitAppCtxStack := [], preserved := false, preservedExc := none }

/-- `RequestContext.pop` (ctx.py:491-543): pop one entry off the implicit
app-context stack; if that was the last nested level, reset the preservation
state, resolve `exc`, run the request teardown hooks and close the request;
always (the `finally` block) pop `_request_ctx_stack`, clear the environ
back-reference when the request was torn down, pop the implicitly created
app context (passing the same `exc`), and assert the popped entry is `self`.
`none` models an escaped exception. -/
def RequestContext.pop (w : World) (i : Nat) (excArg : Option (Option Nat)) :
    Option World :=
  match getAssoc w.reqCtxs i with
  | none => none
  | some c =>
      match c.implicitAppCtxStack with
      | [] => none
      | appCtxEntry :: rest =>
          let isLast := rest.isEmpty
          let exc := resolveExc w excArg
          let c1 :=
            if isLast then
              { c with implicitAppCtxStack := rest, preserved := false,
                       preservedExc := none,
                       request := { c.request with closed := true, envCleared := true } }
            else { c with implicitAppCtxStack := rest }
          let tdEvs := if isLast then [Ev.teardownReq i exc, Ev.reqClosed i] else []
          let excPass := if isLast then some exc else excArg
          let w1 := { w with reqCtxs := updAssoc w.reqCtxs i c1,
                             events := w.events ++ tdEvs }
          match w1.reqStack with
          | [] => none
          | top :: restStack =>
              let w2 := { w1 with reqStack := restStack }
              let w3opt := match appCtxEntry with
                           | none => some w2
                           | some j => AppContext.pop w2 j excPass
              match w3opt with
              | none => none
              | some w3 => if top = i then some w3 else none

/-- `RequestContext.push` (ctx.py:436-489): (a) if the current top of
`_request_ctx_stack` is preserved, pop it first, replaying its stored error;
(b) reuse the top app context when it belongs to the same application, else
create and push a fresh one, recording which case happened on the implicit
app-context stack; (c) push self onto `_request_ctx_stack`; (d) on the first
push of this context only, open the session, substituting a null session when
the interface returns nothing; (e) if a URL adapter exists, run
`match_request`. -/
def RequestContext.push (w : World) (i : Nat) : Option World :=
  let reclaim : Option World :=
    match w.reqStack with
    | [] => some w
    | top :: _ =>
        match getAssoc w.reqCtxs top with
        | none => none
        | some t =>
            if t.preserved then RequestContext.pop w top (some t.preservedExc)
            else some w
  match reclaim with
  | none => none
  | some w1 =>
      match getAssoc w1.reqCtxs i with
      | none => none
      | some c =>
          let step2 : Option (World × Option Nat) :=
            match w1.appStack with
            | [] =>
                let j := w1.nextApp
                let wNew := { w1 with appCtxs := w1.appCtxs ++ [(j, ⟨c.app, 0⟩)],
                                      nextApp := j + 1 }
                some (AppContext.push wNew j, some j)
            | j :: _ =>
                match getAssoc w1.appCtxs j with
                | none => none
                | some a =>
                    if a.app = c.app then some (w1, none)
                    else
                      let j' := w1.nextApp
                      let wNew := { w1 with appCtxs := w1.appCtxs ++ [(j', ⟨c.app, 0⟩)],
                                            nextApp := j' + 1 }
                      some (AppContext.push wNew j', some j')
          match step2 with
          | none => none
          | some (w2, entry) =>
              let c2 := { c with implicitAppCtxStack := entry :: c.implicitAppCtxStack }
              let sessOpened := c2.session.isNone
              let c3 :=
                if sessOpened then
                  { c2 with session := some (match c2.openSessionResult with
                                             | some n => Sess.real n
                                             | none => Sess.null) }
                else c2
              let c4 := match c3.urlAdapter with
                        | some _ => RequestContext.match_request c3
                        | none => c3
              some { w2 with
                     reqStack := i :: w2.reqStack
                     reqCtxs := updAssoc w2.reqCtxs i c4
                     events := w2.events ++ (if sessOpened then [Ev.sessionOpened i] else []) }

/-- `RequestContext.auto_pop` (ctx.py:545-552): if the environ carries the
`flask._preserve_context` flag, or an error occurred and the application is
configured to preserve the context on exceptions, keep the context alive and
stash the error; otherwise pop immediately with that error. -/
def RequestContext.auto_pop (w : World) (i : Nat) (exc : Option Nat) : Option World :=
  match getAssoc w.reqCtxs i with
  | none => none
  | some c =>
      let preserveCfg := match getAssoc w.apps c.app with
                         | some a => a.preserveContextOnException
                         | none => false
      if c.request.preserveFlag || (exc.isSome && preserveCfg) then
        some { w with reqCtxs := updAssoc w.reqCtxs i
                        { c with preserved := true, preservedExc := exc } }
      else RequestContext.pop w i (some exc)

/-! ## Reference counting of the application context (claims C3, C4) -/

/-- A world holding one application (id 0) and one `AppContext` instance
(id 1) with reference count `r`, app-context stack `stack` and trace `evs`. -/
def appWorldAt (r : Int) (stack : List Nat) (evs : List Ev) : World :=
  { reqStack := [], appStack := stack, reqCtxs := [],
    appCtxs := [(1, { app := 0, refcnt := r })],
    apps := [(0, { preserveContextOnException := false })],
    nextApp := 2, ambientExc := none, events := evs }

/-- The fresh scenario world: the context has never been pushed. -/
def appWorld : World := appWorldAt 0 [] []

/-- Iterated `AppContext.push` of context 1. -/
def appPushIter : Nat → World → World
  | 0, w => w
  | n + 1, w => appPushIter n (AppContext.push w 1)

/-- Iterated `AppContext.pop` of context 1 (with an explicit `exc=None`). -/
def appPopIter : Nat → World → Option World
  | 0, w => some w
  | n + 1, w =>
      match AppContext.pop w 1 (some none) with
      | none => none
      | some w' => appPopIter n w'

/-- Does this event record an app-context teardown for application `a`? -/
def isTeardownApp (a : Nat) : Ev → Bool
  | Ev.teardownApp b _ => b == a
  | _ => false

/-- How many times the app-context teardown hooks of application `a` have run. -/
def tdAppCount (w : World) (a : Nat) : Nat := w.events.countP (isTeardownApp a)

/-! ## Nested request-context push/pop (claim C1) -/

/-- The request context used in the nested push/pop scenario: application 0,
a URL adapter whose match succeeds with rule 4 / args 7, a session interface
that returns session 5. -/
def reqCtx0 : RequestContextData :=
  RequestContext.init 0 (Except.ok (RouteOutcome.matched 4 7)) (some 5) false none

/-- The fresh scenario world for C1: one application, one request context
(id 0) never pushed, no app context yet. -/
def reqWorld : World :=
  { reqStack := [], appStack := [], reqCtxs := [(0, reqCtx0)], appCtxs := [],
    apps := [(0, { preserveContextOnException := false })],
    nextApp := 1, ambientExc := none, events := [] }

/-- `m` copies of request-context id 0 (the request stack after `m` pushes). -/
def zeros : Nat → List Nat
  | 0 => []
  | n + 1 => 0 :: zeros n

/-- The implicit app-context stack after `m + 1` nested pushes: only the
first push implicitly created (and recorded) app context 1. -/
def impStack : Nat → List (Option Nat)
  | 0 => [some 1]
  | m + 1 => none :: impStack m

/-- Closed form of the world after `m + 1` nested pushes of context 0. -/
def reqWorldPushed (m : Nat) : World :=
  { reqStack := zeros (m + 1),
    appStack := [1],
    reqCtxs := [(0, { reqCtx0 with
        request := { reqCtx0.request with urlRule := some 4, viewArgs := some 7 },
        session := some (Sess.real 5),
        implicitAppCtxStack := impStack m })],
    appCtxs := [(1, { app := 0, refcnt := 1 })],
    apps := [(0, { preserveContextOnException := false })],
    nextApp := 2, ambientExc := none,
    events := [Ev.appPushed 0, Ev.sessionOpened 0] }

/-- Closed form of the world after the scenario's final pop: one request
teardown, one request close, one app-context teardown. -/
def reqWorldDone : World :=
  { reqStack := [], appStack := [],
    reqCtxs := [(0, { reqCtx0 with
        request := { urlRule := some 4, viewArgs := some 7, routingException := none,
                     preserveFlag := false, closed := true, envCleared := true },
        session := some (Sess.real 5),
        implicitAppCtxStack := [] })],
    appCtxs := [(1, { app := 0, refcnt := 0 })],
    apps := [(0, { preserveContextOnException := false })],
    nextApp := 2, ambientExc := none,
    events := [Ev.appPushed 0, Ev.sessionOpened 0, Ev.teardownReq 0 none,
               Ev.reqClosed 0, Ev.teardownApp 0 none, Ev.appPopped 0] }

/-- Iterated `RequestContext.push` of context 0. -/
def reqPushIter : Nat → World → Option World
  | 0, w => some w
  | n + 1, w =>
      match RequestContext.push w 0 with
      | none => none
      | some w' => reqPushIter n w'

/-- Iterated `RequestContext.pop` of context 0 (explicit `exc=None`). -/
def reqPopIter : Nat → World → Option World
  | 0, w => some w
  | n + 1, w =>
      match RequestContext.pop w 0 (some none) with
      | none => none
      | some w' => reqPopIter n w'

/-- Does this event record a request teardown performed by context `i`? -/
def isTeardownReq (i : Nat) : Ev → Bool
  | Ev.teardownReq j _ => j == i
  | _ => false

/-- Does this event record the closing of context `i`'s request? -/
def isReqClosed (i : Nat) : Ev → Bool
  | Ev.reqClosed j => j == i
  | _ => false

/-- How many times the request teardown hooks ran from context `i`'s pop. -/
def tdReqCount (w : World) (i : Nat) : Nat := w.events.countP (isTeardownReq i)

/-- How many times context `i`'s request was closed. -/
def reqClosedCount (w : World) (i : Nat) : Nat := w.events.countP (isReqClosed i)

/-! ## Reclamation of preserved request contexts (claim C8) -/

/-- Scenario world for C8: application 0 and two request contexts — context 0
(the one that will be preserved; its environ carries `flask._preserve_context`)
and context 1 (the next request). -/
def reqWorldP : World :=
  { reqStack := [], appStack := [],
    reqCtxs :=
      [(0, RequestContext.init 0 (Except.ok (RouteOutcome.matched 4 7)) (some 5) true none),
       (1, RequestContext.init 0 (Except.ok (RouteOutcome.matched 4 7)) (some 6) false none)],
    appCtxs := [], apps := [(0, { preserveContextOnException := false })],
    nextApp := 1, ambientExc := none, events := [] }

/-- Push context 0 once and end its request with error `e`: `auto_pop`
preserves it instead of popping. -/
def preservedSetup (e : Nat) : Option World :=
  (RequestContext.push reqWorldP 0).bind
    (fun w => RequestContext.auto_pop w 0 (some e))

/-- Push context 0 twice (nested) and end with error 9 while still nested:
`auto_pop` preserves it at nesting depth 2. -/
def preservedDeepSetup : Option World :=
  (RequestContext.push reqWorldP 0).bind (fun w =>
    (RequestContext.push w 0).bind
      (fun w2 => RequestContext.auto_pop w2 0 (some 9)))

/-- Push the next request context over the deep-preserved one. -/
def afterReclaimDeep : Option World :=
  preservedDeepSetup.bind (fun w => RequestContext.push w 1)

/-! ## Error-handler lookup (claim C2) -/

/-- An exception class as seen by the handler lookup: its method resolution
order (`exc_class.__mro__`, most specific first, as class ids) and the code
returned by `Flask._get_exc_class_and_code` (app.py:1746-1768: the class
status code for `HTTPException` subclasses, `None` otherwise). -/
structure ExcClass where
  mro : List Nat
  code : Option Nat
deriving DecidableEq

/-- An exception instance: its class data, whether it is an `HTTPException`,
whether it is an internal `RoutingException`, and its `code` attribute
(`None` for proxy exceptions). -/
structure ExcInstance where
  cls : ExcClass
  isHTTP : Bool
  isRouting : Bool
  code : Option Nat
deriving DecidableEq

/-- `error_handler_spec`: keyed by (scope, code), where scope `none` is the
application itself and `some b` a blueprint, and code `none` is the
class-keyed bucket; each bucket maps an exception class to a handler id. -/
def HandlerSpec : Type := List ((Option Nat × Option Nat) × List (Nat × Nat))

/-- Lookup of a (scope, code) bucket in `error_handler_spec`. -/
def getSpec (s : HandlerSpec) (k : Option Nat × Option Nat) :
    Option (List (Nat × Nat)) :=
  match s with
  | [] => none
  | (k', v) :: rest => if k' = k then some v else getSpec rest k

/-- The inner loop of `_find_error_handler` (app.py:2220-2224): walk the
exception class's MRO from most to least specific through one handler map. -/
def mroLookup (m : List (Nat × Nat)) : List Nat → Option Nat
  | [] => none
  | cls :: rest =>
      match getAssoc m cls with
      | some h => some h
      | none => mroLookup m rest

/-- The key loop of `_find_error_handler` (app.py:2209-2224): for each
`(name, c)` key in turn, skip it when its bucket is missing or empty
(`if not handler_map: continue`), otherwise walk the MRO through the bucket
and return the first handler found. -/
def findHandlerLoop (spec : HandlerSpec) (e : ExcClass) :
    List (Option Nat × Option Nat) → Option Nat
  | [] => none
  | k :: rest =>
      match getSpec spec k with
      | none => findHandlerLoop spec e rest
      | some m =>
          if m.isEmpty then findHandlerLoop spec e rest
          else
            match mroLookup m e.mro with
            | some h => some h
            | none => findHandlerLoop spec e rest

/-- `Flask._find_error_handler` (app.py:2197-2224): try, in order, the keys
(blueprint, code), (app, code), (blueprint, None), (app, None). -/
def Flask.find_error_handler (spec : HandlerSpec) (bp : Option Nat)
    (e : ExcClass) : Option Nat :=
  findHandlerLoop spec e [(bp, e.code), (none, e.code), (bp, none), (none, none)]

/-- One lookup step as the spec words it: the handlers registered in scope
`name` under code key `c`, searched by walking the exception's class
hierarchy from most to least specific. -/
def bucketLookup (spec : HandlerSpec) (name c : Option Nat) (mro : List Nat) :
    Option Nat :=
  match getSpec spec (name, c) with
  | none => none
  | some m => if m.isEmpty then none else mroLookup m mro

/-- Modelled from the spec (§4.4.1), for comparison with
`Flask.find_error_handler`: handler lookup order, first match wins —
1. blueprint scope, exact code; 2. global scope, exact code; 3. blueprint
scope, by class hierarchy ignoring code; 4. global scope, the same way;
`none` when nothing matches. -/
def specHandlerLookup (spec : HandlerSpec) (bp : Option Nat) (e : ExcClass) :
    Option Nat :=
  (bucketLookup spec bp e.code e.mro).orElse fun _ =>
    (bucketLookup spec none e.code e.mro).orElse fun _ =>
      (bucketLookup spec bp none e.mro).orElse fun _ =>
        bucketLookup spec none none e.mro

/-- The outcome of the exception-handling entry points. -/
inductive UserExcOutcome where
  /-- a user-registered handler was invoked. -/
  | handled (handler : Nat)
  /-- the `HTTPException` was returned unchanged (its own default response). -/
  | returnedDefault
  /-- no handler: the exception is re-raised with its original traceback. -/
  | reraised
deriving DecidableEq

/-- `Flask.handle_http_exception` (app.py:2226-2264): proxy exceptions
(`e.code is None`) and internal `RoutingException`s are returned unchanged;
otherwise the first matching registered handler is invoked, and the
exception is returned unchanged when none is found. -/
def Flask.handle_http_exception (spec : HandlerSpec) (bp : Option Nat)
    (e : ExcInstance) : UserExcOutcome :=
  if e.code = none then UserExcOutcome.returnedDefault
  else if e.isRouting then UserExcOutcome.returnedDefault
  else
    match Flask.find_error_handler spec bp e.cls with
    | none => UserExcOutcome.returnedDefault
    | some h => UserExcOutcome.handled h

/-- `Flask.handle_user_exception` (app.py:2310-2363): an `HTTPException`
that is not trapped is forwarded to `handle_http_exception`; otherwise the
handler lookup runs and, when it finds nothing, the exception is re-raised.
(The `BadRequestKeyError` message cosmetics of app.py:2340-2354 do not
affect which handler runs and are not modelled.) -/
def Flask.handle_user_exception (spec : HandlerSpec) (bp : Option Nat)
    (trap : Bool) (e : ExcInstance) : UserExcOutcome :=
  if e.isHTTP && !trap then Flask.handle_http_exception spec bp e
  else
    match Flask.find_error_handler spec bp e.cls with
    | none => UserExcOutcome.reraised
    | some h => UserExcOutcome.handled h

/-- The P6 scenario registry: blueprint 1 registered a handler (id 7) for
exact code 404 (stored under the 404 exception class 100), and the
application registered a handler (id 8) for the exception class 100 itself. -/
def p6spec : HandlerSpec :=
  [((some 1, some 404), [(100, 7)]), ((none, none), [(100, 8)])]

/-- The 404 exception raised in the P6 scenario: class 100, whose MRO is
[100, 101] and whose status code is 404. -/
def p6exc : ExcClass := { mro := [100, 101], code := some 404 }

/-! ## Route matching never raises (claim C9) -/

/-- The exception raised when a stored routing exception is surfaced. -/
inductive RaisedExc where
  | routing (e : Nat)
  | formDataRedirect
deriving DecidableEq

/-- `Flask.raise_routing_exception` (app.py:2463-2483): re-raise the recorded
routing exception, except in debug mode for a redirect-class exception on a
request whose method is none of GET/HEAD/OPTIONS, where a
`FormDataRoutingRedirect` is raised instead to help debugging. -/
def Flask.raise_routing_exception (debug : Bool) (isRedirect : Bool)
    (method : String) (e : Nat) : RaisedExc :=
  if debug = false ∨ isRedirect = false
      ∨ method = "GET" ∨ method = "HEAD" ∨ method = "OPTIONS" then
    RaisedExc.routing e
  else
    RaisedExc.formDataRedirect

/-- The routing-exception check at the head of `Flask.dispatch_request`
(app.py:2500-2502): a stored routing exception is surfaced (raised) at this
point of the pipeline — after the pre-request hooks, which
`full_dispatch_request` runs first — otherwise dispatch proceeds. -/
def Flask.dispatch_route_check (debug : Bool) (isRedirect : Bool)
    (method : String) (rd : RequestData) : Except RaisedExc Unit :=
  match rd.routingException with
  | some e => Except.error (Flask.raise_routing_exception debug isRedirect method e)
  | none => Except.ok ()

/-! ## Response coercion (claims C6, C10, C5) -/

/-- A view return value (a Python value) as `Flask.make_response` inspects
it.  Opaque collection tokens (`dict`, `headersObj`, `bytes`, …) stand for
values whose contents the coercion never looks into. -/
inductive PyV where
  | pynone
  | str (s : String)
  | bytes (n : Nat)
  | dict (n : Nat)
  | headersObj (n : Nat)
  | tuple (l : List PyV)
  | list (l : List PyV)
  | respObj (n : Nat)
  | baseResp (n : Nat)
  | callableObj (n : Nat)
  | intV (k : Int)
  | other (n : Nat)

/-- The 2-tuple discrimination test of app.py:2714:
`isinstance(rv[1], (Headers, dict, tuple, list))`. -/
def isHeadersLike : PyV → Bool
  | PyV.headersObj _ => true
  | PyV.dict _ => true
  | PyV.tuple _ => true
  | PyV.list _ => true
  | _ => false

/-- The `__class__.__name__` used in the coercion error messages. -/
def pyTypeName : PyV → String
  | PyV.pynone => "NoneType"
  | PyV.str _ => "str"
  | PyV.bytes _ => "bytes"
  | PyV.dict _ => "dict"
  | PyV.headersObj _ => "Headers"
  | PyV.tuple _ => "tuple"
  | PyV.list _ => "list"
  | PyV.respObj _ => "Response"
  | PyV.baseResp _ => "BaseResponse"
  | PyV.callableObj _ => "function"
  | PyV.intV _ => "int"
  | PyV.other _ => "object"

/-- The bad-arity message of app.py:2721-2725, naming the expected shapes. -/
def tupleErrMsg : String :=
  "The view function did not return a valid response tuple. The tuple must have the form (body, status, headers), (body, status), or (body, headers)."

/-- The `None`-body message of app.py:2730-2734. -/
def noneErrMsg : String :=
  "The view function did not return a valid response. The function either returned None or ended without a return statement."

/-- The bad-type message of app.py:2766-2771, naming the runtime type. -/
def badTypeMsg (tname : String) : String :=
  "The view function did not return a valid response. The return type must be a string, dict, tuple, Response instance, or WSGI callable, but it was a " ++ tname ++ "."

/-- Python truthiness for the `if headers:` check (app.py:2783); opaque
collection tokens stand for non-empty values. -/
def pyTruthy : PyV → Bool
  | PyV.pynone => false
  | PyV.str s => !s.isEmpty
  | PyV.tuple l => !l.isEmpty
  | PyV.list l => !l.isEmpty
  | PyV.intV k => k != 0
  | _ => true

/-- `rv.headers.extend(headers)` runs only when `headers` is truthy. -/
def filterHeaders : Option PyV → Option PyV
  | none => none
  | some h => if pyTruthy h then some h else none

/-- How the canonical response body was obtained (app.py:2736-2771).  For
text/bytes bodies the constructor receives status and headers directly
(app.py:2746-2747 then clears them, so nothing is applied afterwards). -/
inductive RespCore where
  | fromText (s : String) (status : Option PyV) (headers : Option PyV)
  | fromBytes (n : Nat) (status : Option PyV) (headers : Option PyV)
  | jsonified (d : Nat)
  | forced (n : Nat)
  | given (n : Nat)

/-- The coerced response: its core plus the status override
(app.py:2775-2779) and header extension (app.py:2783-2784) applied after
construction. -/
structure MadeResponse where
  core : RespCore
  statusApplied : Option PyV
  headersExtended : Option PyV

/-- The tuple-unpacking step of `Flask.make_response` (app.py:2700-2725):
a 3-tuple unpacks as (body, status, headers); a 2-tuple as (body, headers)
when the second element is a Headers/dict/tuple/list instance, else
(body, status); any other arity is a `TypeError`. -/
def unpackRv (rv0 : PyV) : Except String (PyV × Option PyV × Option PyV) :=
  match rv0 with
  | PyV.tuple l =>
      match l with
      | [a, b, c] => Except.ok (a, some b, some c)
      | [a, b] =>
          if isHeadersLike b then Except.ok (a, none, some b)
          else Except.ok (a, some b, none)
      | _ => Except.error tupleErrMsg
  | v => Except.ok (v, none, none)

/-- The body coercion and status/header application of `Flask.make_response`
(app.py:2727-2786): a `None` body is a `TypeError`; a `response_class`
instance passes through; text/bytes are wrapped fresh with status/headers;
a dict is jsonified; a `BaseResponse` or WSGI callable goes through
`response_class.force_type` (collaborator success assumed — its own
`TypeError` enrichment at app.py:2757-2764 is not modelled); anything else
is a `TypeError` naming the runtime type.  Then an explicit status
overrides, and truthy headers extend. -/
def buildResponse (rv : PyV) (status headers : Option PyV) :
    Except String MadeResponse :=
  match rv with
  | PyV.pynone => Except.error noneErrMsg
  | PyV.respObj n =>
      Except.ok { core := RespCore.given n, statusApplied := status,
                  headersExtended := filterHeaders headers }
  | PyV.str s =>
      Except.ok { core := RespCore.fromText s status headers,
                  statusApplied := none, headersExtended := none }
  | PyV.bytes n =>
      Except.ok { core := RespCore.fromBytes n status headers,
                  statusApplied := none, headersExtended := none }
  | PyV.dict n =>
      Except.ok { core := RespCore.jsonified n, statusApplied := status,
                  headersExtended := filterHeaders headers }
  | PyV.baseResp n =>
      Except.ok { core := RespCore.forced n, statusApplied := status,
                  headersExtended := filterHeaders headers }
  | PyV.callableObj n =>
      Except.ok { core := RespCore.forced n, statusApplied := status,
                  headersExtended := filterHeaders headers }
  | v => Except.error (badTypeMsg (pyTypeName v))

/-- `Flask.make_response` (app.py:2627-2786). -/
def Flask.make_response (rv0 : PyV) : Except String MadeResponse :=
  match unpackRv rv0 with
  | Except.error m => Except.error m
  | Except.ok (rv, status, headers) => buildResponse rv status headers

/-- `Flask.finalize_request` (app.py:2538-2567): coerce the return value
with `make_response` — outside the protected block — then, inside a `try`,
run `process_response` (post-request hooks, session save) and send the
`request_finished` signal; a failure there is re-raised unless
`from_error_handler` is set, in which case it is logged and the
already-coerced response is returned.  `procResp` is the collaborator oracle
for the protected step; the `Bool` in the result records whether a failure
was logged and suppressed. -/
def Flask.finalize_request (rv0 : PyV)
    (procResp : MadeResponse → Except Nat MadeResponse)
    (from_error_handler : Bool) : Except (Sum String Nat) (MadeResponse × Bool) :=
  match Flask.make_response rv0 with
  | Except.error m => Except.error (Sum.inl m)
  | Except.ok response =>
      match procResp response with
      | Except.ok r2 => Except.ok (r2, false)
      | Except.error e =>
          if from_error_handler then Except.ok (response, true)
          else Except.error (Sum.inr e)

/-! ## Hook ordering (claim C7) -/

/-- An ExtensionRegistry category: ordered hook ids per scope (`none` = the
application scope, `some b` = blueprint `b`), as the `*_funcs` dicts. -/
def HookMap : Type := List (Option Nat × List Nat)

/-- Dictionary lookup in a hook registry. -/
def getHooks (m : HookMap) (k : Option Nat) : Option (List Nat) :=
  match m with
  | [] => none
  | (k', v) :: rest => if k' = k then some v else getHooks rest k

/-- `dict.get(scope, ())`. -/
def hooksOrEmpty (m : HookMap) (k : Option Nat) : List Nat :=
  match getHooks m k with
  | some l => l
  | none => []

/-- The `bp is not None and bp in dict` key-presence check. -/
def hasScope (m : HookMap) (bp : Option Nat) : Bool :=
  match bp with
  | none => false
  | some b => (getHooks m (some b)).isSome

/-- The before-request loop of app.py:2905-2908: run hooks in order until
one returns a non-`None` value (`ret` is the oracle for each hook's return
value); produce the invoked ids in order plus the short-circuit value. -/
def runUntilSome (ret : Nat → Option Nat) : List Nat → List Nat × Option Nat
  | [] => ([], none)
  | f :: fs =>
      match ret f with
      | some v => ([f], some v)
      | none =>
          let r := runUntilSome ret fs
          (f :: r.1, r.2)

/-- `Flask.preprocess_request` (app.py:2877-2908): run the URL-value
preprocessors of the application scope then the matched blueprint's (when
that scope has registrations), then the before-request hooks in the same
scope order, stopping at the first non-`None` return value (the handler
short-circuit).  Returns the invoked hook ids in order (URL-value
preprocessors, then before-request hooks) and the short-circuit value. -/
def Flask.preprocess_request (uvp brf : HookMap) (bp : Option Nat)
    (ret : Nat → Option Nat) : List Nat × Option Nat :=
  let uvpFuncs := hooksOrEmpty uvp none ++
    (if hasScope uvp bp then hooksOrEmpty uvp bp else [])
  let brfFuncs := hooksOrEmpty brf none ++
    (if hasScope brf bp then hooksOrEmpty brf bp else [])
  let r := runUntilSome ret brfFuncs
  (uvpFuncs ++ r.1, r.2)

/-- `Flask.process_response` (app.py:2910-2942): run the context's
`after_this_request` callbacks in order, then the matched blueprint's
after-request hooks in reverse registration order, then the application's
in reverse registration order (blueprint before global, deliberately),
threading the response through each handler; finally save the session when
it is not the null session.  Returns the invoked ids in order, the final
response (`hdl` maps (hook id, response) to the new response), and whether
`save_session` ran. -/
def Flask.process_response (ctxFuncs : List Nat) (arf : HookMap)
    (bp : Option Nat) (hdl : Nat → Nat → Nat) (resp : Nat)
    (sessionIsNull : Bool) : List Nat × Nat × Bool :=
  let funcs := ctxFuncs ++
    (if hasScope arf bp then (hooksOrEmpty arf bp).reverse else []) ++
    (if (getHooks arf none).isSome then (hooksOrEmpty arf none).reverse else [])
  (funcs, funcs.foldl (fun r f => hdl f r) resp, !sessionIsNull)

/-! ## Theorems -/
theorem countP_replicate_zero {p : Ev → Bool} {x : Ev} (h : p x = false) (n : Nat) :
    (List.replicate n x).countP p = 0 := by
  rw [List.countP_eq_zero]
  intro a ha
  rw [List.eq_of_mem_replicate ha]
  simp [h]

theorem appPush_step (r : Int) (s : List Nat) (evs : List Ev) :
    AppContext.push (appWorldAt r s evs) 1 =
      appWorldAt (r + 1) (1 :: s) (evs ++ [Ev.appPushed 0]) := rfl

theorem appPushIter_spec (n : Nat) : ∀ (r : Int) (s : List Nat) (evs : List Ev),
    appPushIter n (appWorldAt r s evs) =
      appWorldAt (r + n) (List.replicate n 1 ++ s)
        (evs ++ List.replicate n (Ev.appPushed 0)) := by
  induction n with
  | zero => intro r s evs; simp [appPushIter]
  | succ n ih =>
      intro r s evs
      show appPushIter n (AppContext.push (appWorldAt r s evs) 1) = _
      rw [appPush_step, ih]
      have h1 : (r + 1 + (n : Int)) = r + ((n + 1 : Nat) : Int) := by push_cast; ring
      have h2 : List.replicate n 1 ++ (1 :: s) = List.replicate (n + 1) 1 ++ s := by
        simp [List.replicate_succ', List.append_assoc]
      have h3 : (evs ++ [Ev.appPushed 0]) ++ List.replicate n (Ev.appPushed 0)
          = evs ++ List.replicate (n + 1) (Ev.appPushed 0) := by
        simp [List.replicate_succ]
      rw [h1, h2, h3]

theorem appPop_step_noTd (r : Int) (s : List Nat) (evs : List Ev) (h : ¬ r - 1 ≤ 0) :
    AppContext.pop (appWorldAt r (1 :: s) evs) 1 (some none) =
      some (appWorldAt (r - 1) s (evs ++ [Ev.appPopped 0])) := by
  unfold AppContext.pop appWorldAt
  simp [getAssoc, updAssoc, h]

theorem appPop_step_td (r : Int) (s : List Nat) (evs : List Ev) (h : r - 1 ≤ 0) :
    AppContext.pop (appWorldAt r (1 :: s) evs) 1 (some none) =
      some (appWorldAt (r - 1) s (evs ++ [Ev.teardownApp 0 none, Ev.appPopped 0])) := by
  unfold AppContext.pop appWorldAt
  simp [getAssoc, updAssoc, h, resolveExc]

theorem appPopIter_spec (j : Nat) : ∀ (r : Int) (s : List Nat) (evs : List Ev),
    (j : Int) < r →
    appPopIter j (appWorldAt r (List.replicate j 1 ++ s) evs) =
      some (appWorldAt (r - j) s (evs ++ List.replicate j (Ev.appPopped 0))) := by
  induction j with
  | zero => intro r s evs _; simp [appPopIter]
  | succ j ih =>
      intro r s evs hj
      have hr : ¬ r - 1 ≤ 0 := by
        have : ((j : Int) + 1) < r := by push_cast at hj; omega
        omega
      rw [List.replicate_succ, List.cons_append]
      show (match AppContext.pop (appWorldAt r (1 :: (List.replicate j 1 ++ s)) evs)
              1 (some none) with
            | none => none
            | some w' => appPopIter j w') = _
      rw [appPop_step_noTd r _ _ hr]
      have hj' : (j : Int) < r - 1 := by push_cast at hj ⊢; omega
      show appPopIter j
          (appWorldAt (r - 1) (List.replicate j 1 ++ s) (evs ++ [Ev.appPopped 0])) = _
      rw [ih (r - 1) s (evs ++ [Ev.appPopped 0]) hj']
      have h1 : r - 1 - (j : Int) = r - ((j + 1 : Nat) : Int) := by push_cast; ring
      have h2 : (evs ++ [Ev.appPopped 0]) ++ List.replicate j (Ev.appPopped 0)
          = evs ++ List.replicate (j + 1) (Ev.appPopped 0) := by
        simp [List.replicate_succ]
      rw [h1, h2]

theorem appPopIter_add (m n : Nat) : ∀ w, appPopIter (m + n) w =
    (appPopIter m w).bind (appPopIter n) := by
  induction m with
  | zero => intro w; simp [appPopIter]
  | succ m ih =>
      intro w
      have hmn : m + 1 + n = (m + n) + 1 := by omega
      rw [hmn]
      show (match AppContext.pop w 1 (some none) with
            | none => none
            | some w' => appPopIter (m + n) w') = _
      cases hpop : AppContext.pop w 1 (some none) with
      | none => simp [appPopIter, hpop]
      | some w' => simp [appPopIter, hpop, ih w']

/-- C4: pushing the same `AppContext` instance `N ≥ 1` times and then popping
it `N` times runs the application-context teardown hooks exactly once, on the
final (`N`-th) pop; no pop made before the reference count reaches 0 runs
them. -/
theorem appcontext_refcount_teardown (N : Nat) (hN : 1 ≤ N) :
    (∀ j, j < N → ∃ wj, appPopIter j (appPushIter N appWorld) = some wj ∧
        tdAppCount wj 0 = 0) ∧
    (∃ w, appPopIter N (appPushIter N appWorld) = some w ∧ tdAppCount w 0 = 1) := by
  have hPush : appPushIter N appWorld =
      appWorldAt N (List.replicate N 1) (List.replicate N (Ev.appPushed 0)) := by
    have h := appPushIter_spec N 0 [] []
    simpa [appWorld] using h
  constructor
  · intro j hj
    have hsplit : List.replicate N (1 : Nat)
        = List.replicate j 1 ++ List.replicate (N - j) 1 := by
      rw [← List.replicate_add]
      congr 1
      omega
    have hj' : (j : Int) < (N : Int) := by exact_mod_cast hj
    have hpop := appPopIter_spec j N (List.replicate (N - j) 1)
        (List.replicate N (Ev.appPushed 0)) hj'
    rw [← hsplit] at hpop
    refine ⟨_, by rw [hPush]; exact hpop, ?_⟩
    simp [tdAppCount, appWorldAt, List.countP_append,
          countP_replicate_zero (p := isTeardownApp 0) (x := Ev.appPushed 0) rfl,
          countP_replicate_zero (p := isTeardownApp 0) (x := Ev.appPopped 0) rfl]
  · obtain ⟨M, rfl⟩ : ∃ M, N = M + 1 := ⟨N - 1, by omega⟩
    have hsplit : List.replicate (M + 1) (1 : Nat)
        = List.replicate M 1 ++ List.replicate 1 1 := by
      rw [← List.replicate_add]
    have hM : (M : Int) < ((M + 1 : Nat) : Int) := by push_cast; omega
    have hpopM := appPopIter_spec M ((M + 1 : Nat) : Int) (List.replicate 1 1)
        (List.replicate (M + 1) (Ev.appPushed 0)) hM
    rw [← hsplit] at hpopM
    have hr1 : ((M + 1 : Nat) : Int) - (M : Int) = 1 := by push_cast; ring
    rw [hr1] at hpopM
    have hfinal : appPopIter (M + 1) (appPushIter (M + 1) appWorld) =
        some (appWorldAt 0 []
          ((List.replicate (M + 1) (Ev.appPushed 0) ++ List.replicate M (Ev.appPopped 0))
            ++ [Ev.teardownApp 0 none, Ev.appPopped 0])) := by
      rw [hPush, appPopIter_add M 1, hpopM]
      show appPopIter 1 (appWorldAt 1 (List.replicate 1 1)
          (List.replicate (M + 1) (Ev.appPushed 0)
            ++ List.replicate M (Ev.appPopped 0))) = _
      show (match AppContext.pop (appWorldAt 1 (1 :: [])
              (List.replicate (M + 1) (Ev.appPushed 0)
                ++ List.replicate M (Ev.appPopped 0))) 1 (some none) with
            | none => none
            | some w' => appPopIter 0 w') = _
      rw [appPop_step_td 1 [] _ (by omega)]
      norm_num [appPopIter]
    refine ⟨_, hfinal, ?_⟩
    simp [tdAppCount, appWorldAt, List.countP_append, List.countP_cons,
          countP_replicate_zero (p := isTeardownApp 0) (x := Ev.appPushed 0) rfl,
          countP_replicate_zero (p := isTeardownApp 0) (x := Ev.appPopped 0) rfl,
          isTeardownApp]

theorem appcontext_refcount_teardown_witness :
    (∃ w1, appPopIter 1 (appPushIter 2 appWorld) = some w1 ∧ tdAppCount w1 0 = 0) ∧
    (∃ w, appPopIter 2 (appPushIter 2 appWorld) = some w ∧ tdAppCount w 0 = 1) :=
  ⟨(appcontext_refcount_teardown 2 (by decide)).1 1 (by decide),
   (appcontext_refcount_teardown 2 (by decide)).2⟩

/-- C3 counterexample: the claim predicts that a push at a reference count
other than 0 leaves the app-context stack unchanged.  In the code every
`AppContext.push` pushes a stack entry and emits the pushed notification:
after the second push of the same instance (reference count 1 → 2) the stack
holds two entries, and a pop at count 2 → 1 already removes one. -/
theorem appcontext_push_stack_counterexample :
    (AppContext.push appWorld 1).appStack = [1] ∧
    (AppContext.push (AppContext.push appWorld 1) 1).appStack = [1, 1] ∧
    (AppContext.push (AppContext.push appWorld 1) 1).appStack ≠
      (AppContext.push appWorld 1).appStack ∧
    (AppContext.push (AppContext.push appWorld 1) 1).events
      = [Ev.appPushed 0, Ev.appPushed 0] ∧
    (AppContext.pop (AppContext.push (AppContext.push appWorld 1) 1) 1
        (some none)).map World.appStack = some [1] := by
  decide

/-- C3 amended: `AppContext.push` increments the reference count and *always*
pushes the context onto the stack and emits the pushed notification,
whatever the count; `AppContext.pop` *always* removes the top stack entry;
only the execution of the app-context teardown hooks is gated on the count
reaching ≤ 0. -/
theorem appcontext_push_pop_stack_amended (w : World) (i : Nat)
    (d : AppContextData) (h : getAssoc w.appCtxs i = some d) :
    AppContext.push w i =
      { w with appCtxs := updAssoc w.appCtxs i { d with refcnt := d.refcnt + 1 },
               appStack := i :: w.appStack,
               events := w.events ++ [Ev.appPushed d.app] } ∧
    (∀ rest excArg, w.appStack = i :: rest →
      AppContext.pop w i excArg =
        some { w with
               appCtxs := updAssoc w.appCtxs i { d with refcnt := d.refcnt - 1 },
               appStack := rest,
               events := w.events
                 ++ (if d.refcnt - 1 ≤ 0
                     then [Ev.teardownApp d.app (resolveExc w excArg)] else [])
                 ++ [Ev.appPopped d.app] }) := by
  constructor
  · unfold AppContext.push
    rw [h]
  · intro rest excArg hs
    unfold AppContext.pop
    rw [h, hs]
    simp

theorem appcontext_push_pop_stack_amended_witness :
    AppContext.pop (AppContext.push appWorld 1) 1 (some none) =
      some { AppContext.push appWorld 1 with
             appCtxs := updAssoc (AppContext.push appWorld 1).appCtxs 1 ⟨0, 0⟩,
             appStack := [],
             events := (AppContext.push appWorld 1).events
               ++ [Ev.teardownApp 0 none] ++ [Ev.appPopped 0] } := by
  have h := (appcontext_push_pop_stack_amended (AppContext.push appWorld 1) 1
      ⟨0, 1⟩ (by decide)).2 [] (some none) (by decide)
  rw [h]
  decide

theorem reqPush_base : RequestContext.push reqWorld 0 = some (reqWorldPushed 0) := rfl

theorem reqPush_step (m : Nat) :
    RequestContext.push (reqWorldPushed m) 0 = some (reqWorldPushed (m + 1)) := rfl

theorem reqPop_step (m : Nat) :
    RequestContext.pop (reqWorldPushed (m + 1)) 0 (some none)
      = some (reqWorldPushed m) := by
  cases m <;> rfl

theorem reqPop_last :
    RequestContext.pop (reqWorldPushed 0) 0 (some none) = some reqWorldDone := by
  decide

theorem reqPushIter_spec (k : Nat) : ∀ m, reqPushIter k (reqWorldPushed m)
    = some (reqWorldPushed (m + k)) := by
  induction k with
  | zero => intro m; simp [reqPushIter]
  | succ k ih =>
      intro m
      show (match RequestContext.push (reqWorldPushed m) 0 with
            | none => none
            | some w' => reqPushIter k w') = _
      rw [reqPush_step]
      show reqPushIter k (reqWorldPushed (m + 1)) = _
      rw [ih (m + 1), show m + 1 + k = m + (k + 1) from by omega]

theorem reqPopIter_part (j : Nat) : ∀ m, j ≤ m →
    reqPopIter j (reqWorldPushed m) = some (reqWorldPushed (m - j)) := by
  induction j with
  | zero => intro m _; simp [reqPopIter]
  | succ j ih =>
      intro m hj
      obtain ⟨m', rfl⟩ : ∃ m', m = m' + 1 := ⟨m - 1, by omega⟩
      show (match RequestContext.pop (reqWorldPushed (m' + 1)) 0 (some none) with
            | none => none
            | some w' => reqPopIter j w') = _
      rw [reqPop_step]
      show reqPopIter j (reqWorldPushed m') = _
      rw [ih m' (by omega), show m' - j = m' + 1 - (j + 1) from by omega]

theorem reqPopIter_add (m n : Nat) : ∀ w, reqPopIter (m + n) w =
    (reqPopIter m w).bind (reqPopIter n) := by
  induction m with
  | zero => intro w; simp [reqPopIter]
  | succ m ih =>
      intro w
      rw [show m + 1 + n = (m + n) + 1 from by omega]
      show (match RequestContext.pop w 0 (some none) with
            | none => none
            | some w' => reqPopIter (m + n) w') = _
      cases hpop : RequestContext.pop w 0 (some none) with
      | none => simp [reqPopIter, hpop]
      | some w' => simp [reqPopIter, hpop, ih w']

/-- C1: a `RequestContext` pushed `K ≥ 1` times (nested) and popped `K`
times performs the request teardown sequence — resetting preservation state,
resolving the error, running the request teardown hooks, and closing the
request — exactly once in total, on the `K`-th (final) pop, and never on an
intermediate pop. -/
theorem request_teardown_exactly_once (K : Nat) (hK : 1 ≤ K) :
    (∀ j, j < K → ∃ wj, (reqPushIter K reqWorld).bind (reqPopIter j) = some wj ∧
        tdReqCount wj 0 = 0 ∧ reqClosedCount wj 0 = 0) ∧
    (∃ w, (reqPushIter K reqWorld).bind (reqPopIter K) = some w ∧
        tdReqCount w 0 = 1 ∧ reqClosedCount w 0 = 1) := by
  obtain ⟨M, rfl⟩ : ∃ M, K = M + 1 := ⟨K - 1, by omega⟩
  have hPush : reqPushIter (M + 1) reqWorld = some (reqWorldPushed M) := by
    show (match RequestContext.push reqWorld 0 with
          | none => none
          | some w' => reqPushIter M w') = _
    rw [reqPush_base]
    show reqPushIter M (reqWorldPushed 0) = _
    rw [reqPushIter_spec M 0]
    norm_num
  constructor
  · intro j hj
    refine ⟨reqWorldPushed (M - j), ?_, rfl, rfl⟩
    rw [hPush]
    show reqPopIter j (reqWorldPushed M) = _
    exact reqPopIter_part j M (by omega)
  · refine ⟨reqWorldDone, ?_, rfl, rfl⟩
    rw [hPush]
    show reqPopIter (M + 1) (reqWorldPushed M) = _
    rw [reqPopIter_add M 1, reqPopIter_part M M (le_refl M)]
    show reqPopIter 1 (reqWorldPushed (M - M)) = _
    rw [Nat.sub_self]
    show (match RequestContext.pop (reqWorldPushed 0) 0 (some none) with
          | none => none
          | some w' => reqPopIter 0 w') = _
    rw [reqPop_last]
    rfl

theorem request_teardown_exactly_once_witness :
    (∃ w1, (reqPushIter 2 reqWorld).bind (reqPopIter 1) = some w1 ∧
        tdReqCount w1 0 = 0 ∧ reqClosedCount w1 0 = 0) ∧
    (∃ w, (reqPushIter 2 reqWorld).bind (reqPopIter 2) = some w ∧
        tdReqCount w 0 = 1 ∧ reqClosedCount w 0 = 1) :=
  ⟨(request_teardown_exactly_once 2 (by decide)).1 1 (by decide),
   (request_teardown_exactly_once 2 (by decide)).2⟩

/-- C8 counterexample: a context preserved while still nested two levels deep
(reachable by two nested pushes followed by a preserving `auto_pop`) is
popped only once by the next `RequestContext.push`: no teardown sequence runs
for it and it is still on the request stack (below the new context) after the
push completes, contradicting the claim's "exactly one teardown sequence has
run for the old context and it is no longer on the stack". -/
theorem preserved_reclaim_counterexample :
    preservedDeepSetup.map (fun w =>
        ((getAssoc w.reqCtxs 0).map RequestContextData.preserved, w.reqStack))
      = some (some true, [0, 0]) ∧
    afterReclaimDeep.map (fun w => (tdReqCount w 0, reqClosedCount w 0, w.reqStack))
      = some (0, 0, [1, 0]) := by
  decide

/-- C8 amended: whenever `RequestContext.push` runs while the top of the
request stack is a preserved `RequestContext` *at its final nesting level*
(one pending push — the normal situation, since `auto_pop` preservation
happens at the natural end of a request), the old context is popped first
with its stored error replayed, so that after the push completes exactly one
teardown sequence has run for it and it is no longer on the stack.  (A
context preserved while nested more deeply is popped once without teardown
and stays on the stack, per the counterexample.) -/
theorem preserved_reclaim_on_push (e : Nat) :
    ∃ wp w',
      preservedSetup e = some wp ∧
      (getAssoc wp.reqCtxs 0).map RequestContextData.preserved = some true ∧
      (getAssoc wp.reqCtxs 0).map RequestContextData.preservedExc = some (some e) ∧
      wp.reqStack = [0] ∧
      tdReqCount wp 0 = 0 ∧
      RequestContext.push wp 1 = some w' ∧
      tdReqCount w' 0 = 1 ∧
      reqClosedCount w' 0 = 1 ∧
      w'.events = [Ev.appPushed 0, Ev.sessionOpened 0, Ev.teardownReq 0 (some e),
                   Ev.reqClosed 0, Ev.teardownApp 0 (some e), Ev.appPopped 0,
                   Ev.appPushed 0, Ev.sessionOpened 1] ∧
      w'.reqStack = [1] := by
  exact ⟨_, _, rfl, rfl, rfl, rfl, rfl, rfl, rfl, rfl, rfl, rfl⟩

theorem findHandlerLoop_cons (spec : HandlerSpec) (e : ExcClass)
    (k : Option Nat × Option Nat) (rest : List (Option Nat × Option Nat)) :
    findHandlerLoop spec e (k :: rest) =
      (bucketLookup spec k.1 k.2 e.mro).orElse
        (fun _ => findHandlerLoop spec e rest) := by
  obtain ⟨a, b⟩ := k
  show (match getSpec spec (a, b) with
        | none => findHandlerLoop spec e rest
        | some m =>
            if m.isEmpty then findHandlerLoop spec e rest
            else
              match mroLookup m e.mro with
              | some h => some h
              | none => findHandlerLoop spec e rest) = _
  cases hs : getSpec spec (a, b) with
  | none => simp [bucketLookup, hs, Option.orElse]
  | some m =>
      by_cases hm : m.isEmpty
      · simp [bucketLookup, hs, hm, Option.orElse]
      · cases hmro : mroLookup m e.mro with
        | none => simp [bucketLookup, hs, hm, hmro, Option.orElse]
        | some h => simp [bucketLookup, hs, hm, hmro, Option.orElse]

/-- C2: the handler invoked for a raised exception is the first match in the
order: blueprint handler for the exact code, application handler for the
exact code, blueprint handler found by walking the exception's class
hierarchy from most to least specific ignoring the code, application handler
found the same way (`Flask._find_error_handler` equals the spec-worded
lookup); in the P6 scenario a blueprint 404-code handler beats a global
class handler; and when no handler matches, no user handler is invoked
(`handle_user_exception` re-raises or returns the exception's own default
response, never `handled`). -/
theorem error_handler_precedence :
    (∀ (spec : HandlerSpec) (bp : Option Nat) (e : ExcClass),
      Flask.find_error_handler spec bp e = specHandlerLookup spec bp e) ∧
    Flask.find_error_handler p6spec (some 1) p6exc = some 7 ∧
    (∀ (spec : HandlerSpec) (bp : Option Nat) (trap : Bool) (e : ExcInstance),
      Flask.find_error_handler spec bp e.cls = none →
      ∀ h, Flask.handle_user_exception spec bp trap e ≠ UserExcOutcome.handled h) := by
  refine ⟨?_, rfl, ?_⟩
  · intro spec bp e
    show findHandlerLoop spec e [(bp, e.code), (none, e.code), (bp, none), (none, none)] = _
    rw [findHandlerLoop_cons, findHandlerLoop_cons, findHandlerLoop_cons,
        findHandlerLoop_cons]
    simp [findHandlerLoop, specHandlerLookup]
  · intro spec bp trap e hfind h
    unfold Flask.handle_user_exception
    by_cases hh : e.isHTTP && !trap
    · simp only [hh, if_pos]
      unfold Flask.handle_http_exception
      by_cases hc : e.code = none
      · simp [hc]
      · by_cases hr : e.isRouting
        · simp [hc, hr]
        · simp [hc, hr, hfind]
    · simp [hh, hfind]

theorem error_handler_precedence_witness :
    Flask.handle_user_exception ([] : HandlerSpec) none false
        { cls := { mro := [], code := none }, isHTTP := false, isRouting := false,
          code := none } ≠ UserExcOutcome.handled 0 :=
  error_handler_precedence.2.2 ([] : HandlerSpec) none false
    { cls := { mro := [], code := none }, isHTTP := false, isRouting := false,
      code := none } rfl 0

/-- C9: the route-matching step never raises.  `match_request` is a total
function on the context: a successful adapter match stores the rule and view
args, an adapter routing failure is captured into
`request.routing_exception`; likewise the constructor captures a routing
failure of the URL-adapter creation.  The stored failure is surfaced later
by the dispatcher's route check. -/
theorem match_request_never_raises :
    (∀ (c : RequestContextData) r a,
      c.urlAdapter = some (RouteOutcome.matched r a) →
      RequestContext.match_request c =
        { c with request := { c.request with urlRule := some r, viewArgs := some a } }) ∧
    (∀ (c : RequestContextData) e,
      c.urlAdapter = some (RouteOutcome.routingError e) →
      RequestContext.match_request c =
        { c with request := { c.request with routingException := some e } }) ∧
    (∀ (c : RequestContextData), c.urlAdapter = none →
      RequestContext.match_request c = c) ∧
    (∀ app osr pf s e,
      RequestContext.init app (Except.error e) osr pf s =
        { app := app,
          request := { urlRule := none, viewArgs := none, routingException := some e,
                       preserveFlag := pf, closed := false, envCleared := false },
          urlAdapter := none, openSessionResult := osr, session := s,
          implicitAppCtxStack := [], preserved := false, preservedExc := none }) ∧
    (∀ debug isRedirect method (rd : RequestData) e, rd.routingException = some e →
      Flask.dispatch_route_check debug isRedirect method rd =
        Except.error (Flask.raise_routing_exception debug isRedirect method e)) ∧
    (∀ debug isRedirect method (rd : RequestData), rd.routingException = none →
      Flask.dispatch_route_check debug isRedirect method rd = Except.ok ()) := by
  refine ⟨?_, ?_, ?_, ?_, ?_, ?_⟩
  · intro c r a h
    unfold RequestContext.match_request
    rw [h]
  · intro c e h
    unfold RequestContext.match_request
    rw [h]
  · intro c h
    unfold RequestContext.match_request
    rw [h]
  · intro app osr pf s e
    rfl
  · intro debug isRedirect method rd e h
    unfold Flask.dispatch_route_check
    rw [h]
  · intro debug isRedirect method rd h
    unfold Flask.dispatch_route_check
    rw [h]

theorem match_request_never_raises_witness :
    RequestContext.match_request
        (RequestContext.init 0 (Except.ok (RouteOutcome.routingError 44)) none false none)
      = { RequestContext.init 0 (Except.ok (RouteOutcome.routingError 44)) none false none with
          request := { (RequestContext.init 0
              (Except.ok (RouteOutcome.routingError 44)) none false none).request with
            routingException := some 44 } } :=
  match_request_never_raises.2.1
    (RequestContext.init 0 (Except.ok (RouteOutcome.routingError 44)) none false none)
    44 rfl

/-- C6: response coercion fails with a `TypeError` when the view return
value is `None` or the body element of a returned tuple is `None` (message
`noneErrMsg`), and when the returned tuple has an arity other than 2 or 3 —
for example a 4-tuple — with the message `tupleErrMsg` naming the expected
shapes. -/
theorem make_response_type_errors :
    Flask.make_response PyV.pynone = Except.error noneErrMsg ∧
    (∀ s h, Flask.make_response (PyV.tuple [PyV.pynone, s, h])
      = Except.error noneErrMsg) ∧
    (∀ b, Flask.make_response (PyV.tuple [PyV.pynone, b])
      = Except.error noneErrMsg) ∧
    (∀ l : List PyV, l.length ≠ 2 → l.length ≠ 3 →
      Flask.make_response (PyV.tuple l) = Except.error tupleErrMsg) := by
  refine ⟨rfl, fun s h => rfl, ?_, ?_⟩
  · intro b
    by_cases hb : isHeadersLike b <;>
      simp [Flask.make_response, unpackRv, buildResponse, hb]
  · intro l h2 h3
    cases l with
    | nil => rfl
    | cons a t1 =>
        cases t1 with
        | nil => rfl
        | cons b t2 =>
            cases t2 with
            | nil => simp at h2
            | cons c t3 =>
                cases t3 with
                | nil => simp at h3
                | cons d t4 => rfl

theorem make_response_type_errors_witness :
    Flask.make_response
        (PyV.tuple [PyV.str "a", PyV.intV 200, PyV.list [], PyV.other 0])
      = Except.error tupleErrMsg :=
  make_response_type_errors.2.2.2
    [PyV.str "a", PyV.intV 200, PyV.list [], PyV.other 0] (by decide) (by decide)

/-- C10: for a 2-tuple view return value (body, x), `make_response` treats
`x` as headers exactly when `x` is an instance of Headers, dict, tuple or
list — whatever its contents — and as the status in every other case; in
particular a tuple or list second element is always headers, never a
status. -/
theorem make_response_two_tuple_classification :
    (∀ a x, Flask.make_response (PyV.tuple [a, x]) =
      buildResponse a (if isHeadersLike x then none else some x)
                      (if isHeadersLike x then some x else none)) ∧
    (∀ l, isHeadersLike (PyV.tuple l) = true) ∧
    (∀ l, isHeadersLike (PyV.list l) = true) ∧
    (∀ n, isHeadersLike (PyV.dict n) = true) ∧
    (∀ n, isHeadersLike (PyV.headersObj n) = true) ∧
    (∀ s, isHeadersLike (PyV.str s) = false) ∧
    (∀ n, isHeadersLike (PyV.bytes n) = false) ∧
    (∀ k, isHeadersLike (PyV.intV k) = false) ∧
    isHeadersLike PyV.pynone = false ∧
    (∀ n, isHeadersLike (PyV.respObj n) = false) ∧
    (∀ n, isHeadersLike (PyV.baseResp n) = false) ∧
    (∀ n, isHeadersLike (PyV.callableObj n) = false) ∧
    (∀ n, isHeadersLike (PyV.other n) = false) := by
  refine ⟨?_, fun l => rfl, fun l => rfl, fun n => rfl, fun n => rfl, fun s => rfl,
          fun n => rfl, fun k => rfl, rfl, fun n => rfl, fun n => rfl, fun n => rfl,
          fun n => rfl⟩
  intro a x
  by_cases hx : isHeadersLike x <;> simp [Flask.make_response, unpackRv, hx]

/-- C5 counterexample: the claim includes response coercion among the
failures suppressed under `from_error_handler`, but `make_response` runs
outside the protected block (app.py:2557), so its failure propagates even
when `from_error_handler` is set: finalizing a `None` return value from the
error-handling path yields the propagated `TypeError`, not a suppressed
response. -/
theorem finalize_suppression_counterexample :
    Flask.finalize_request PyV.pynone (fun r => Except.ok r) true
      = Except.error (Sum.inl noneErrMsg) := rfl

/-- C5 amended: during request finalization, failures in the post-coercion
steps (post-request hooks, session save, the request-finished signal) are
logged and suppressed — with the already-coerced response still returned —
when finalization was entered from the error-handling path, and propagate
otherwise; a failure of the response coercion itself always propagates,
whatever the flag. -/
theorem finalize_request_error_suppression (rv0 : PyV)
    (procResp : MadeResponse → Except Nat MadeResponse) (feh : Bool) :
    (∀ m, Flask.make_response rv0 = Except.error m →
      Flask.finalize_request rv0 procResp feh = Except.error (Sum.inl m)) ∧
    (∀ r e, Flask.make_response rv0 = Except.ok r → procResp r = Except.error e →
      feh = true → Flask.finalize_request rv0 procResp feh = Except.ok (r, true)) ∧
    (∀ r e, Flask.make_response rv0 = Except.ok r → procResp r = Except.error e →
      feh = false → Flask.finalize_request rv0 procResp feh = Except.error (Sum.inr e)) ∧
    (∀ r r2, Flask.make_response rv0 = Except.ok r → procResp r = Except.ok r2 →
      Flask.finalize_request rv0 procResp feh = Except.ok (r2, false)) := by
  refine ⟨?_, ?_, ?_, ?_⟩
  · intro m h
    unfold Flask.finalize_request
    rw [h]
  · intro r e h1 h2 h3
    unfold Flask.finalize_request
    rw [h1]
    simp [h2, h3]
  · intro r e h1 h2 h3
    unfold Flask.finalize_request
    rw [h1]
    simp [h2, h3]
  · intro r r2 h1 h2
    unfold Flask.finalize_request
    rw [h1]
    simp [h2]

theorem finalize_request_error_suppression_witness :
    Flask.finalize_request (PyV.str "x") (fun _ => Except.error 5) true
      = Except.ok ({ core := RespCore.fromText "x" none none,
                     statusApplied := none, headersExtended := none }, true) :=
  (finalize_request_error_suppression (PyV.str "x") (fun _ => Except.error 5) true).2.1
    { core := RespCore.fromText "x" none none,
      statusApplied := none, headersExtended := none } 5 rfl rfl rfl

theorem runUntilSome_all_none (ret : Nat → Option Nat) (h : ∀ f, ret f = none) :
    ∀ l, runUntilSome ret l = (l, none) := by
  intro l
  induction l with
  | nil => rfl
  | cons f fs ih => simp [runUntilSome, h f, ih]

/-- C7: within one request, pre-request hooks run in registration order with
application-scope hooks before the matched blueprint's; post-request hooks
run in reverse registration order with the blueprint's hooks before the
application's; with pre-hooks [A,B] = [10,11] and post-hooks [C,D] = [20,21]
registered in that order, the execution order is A, B, handler (99), D, C. -/
theorem hook_ordering :
    (∀ (g b : List Nat) (ret : Nat → Option Nat), (∀ f, ret f = none) →
      Flask.preprocess_request [] [(none, g), (some 7, b)] (some 7) ret
        = (g ++ b, none)) ∧
    (∀ (ctxF g b : List Nat) (hdl : Nat → Nat → Nat) (resp : Nat)
        (nullSess : Bool),
      (Flask.process_response ctxF [(none, g), (some 7, b)] (some 7) hdl resp
          nullSess).1
        = ctxF ++ b.reverse ++ g.reverse) ∧
    ((Flask.preprocess_request [] [((none : Option Nat), [10, 11])] none
          (fun _ => none)).1
        ++ 99 :: (Flask.process_response [] [((none : Option Nat), [20, 21])]
          none (fun _ r => r) 0 false).1
      = [10, 11, 99, 21, 20]) := by
  refine ⟨?_, fun ctxF g b hdl resp nullSess => rfl, rfl⟩
  intro g b ret h
  unfold Flask.preprocess_request
  simp [hooksOrEmpty, getHooks, hasScope, runUntilSome_all_none ret h]

theorem hook_ordering_witness :
    Flask.preprocess_request [] [((none : Option Nat), [10, 11]), (some 7, [12])]
        (some 7) (fun _ => none) = ([10, 11, 12], none) :=
  hook_ordering.1 [10, 11] [12] (fun _ => none) (fun _ => rfl)
